import Mathlib

/-!
Verification of the alert evaluation engine of the weather-alert-system
repository (`src/alerts.py`, class `AlertChecker`).

The embedding is shallow:
* JSON numbers are modelled as rationals (`ℚ`), exact and decidable.
* A Python `dict.get(key)` that may be absent is an `Option`.
* Wall-clock times of day (`datetime.time`) are records of hour, minute and
  second, compared through their second-of-day value.
* The mutable `self.alert_history` dict is passed as explicit state, a map
  from cooldown keys to the last-fired timestamp (epoch seconds, `ℚ`).
* A Python statement that can raise an uncaught exception is given an
  `Except` result type; `.error` is an uncaught `TypeError`.
-/

namespace WeatherAlert

/-- The uncaught Python exceptions that `check_location_alerts` can raise. -/
inductive PyExn where
  | typeError
deriving DecidableEq

/-- The `precipitation` sub-dict of a weather snapshot: keys `rain`, `snow`. -/
structure Precip where
  rain : Option ℚ
  snow : Option ℚ
deriving DecidableEq

/-- A weather snapshot, as read by `_get_condition_value`: every field the
code fetches with `dict.get`, absent keys being `none`. -/
structure WeatherData where
  temperature_current : Option ℚ
  temperature_feels_like : Option ℚ
  humidity : Option ℚ
  pressure : Option ℚ
  wind_speed : Option ℚ
  clouds : Option ℚ
  precipitation : Option Precip
deriving DecidableEq

/-- One entry of a location's `alerts` list in the configuration.
`alert.get("condition")`, `.get("operator")`, `.get("value")`,
`.get("message")` may each be absent. -/
structure AlertRule where
  condition : Option String
  operator : Option String
  value : Option ℚ
  message : Option String
deriving DecidableEq

/-- One entry of the configuration's `locations` list: `loc.get("name")`
and `loc.get("alerts", [])`. -/
structure Location where
  name : Option String
  alerts : List AlertRule
deriving DecidableEq

/-- The `preferences.quiet_hours` block: `enabled` (default false handled by
the Bool), `start` and `end` strings, absent when the key is missing. -/
structure QuietHours where
  enabled : Bool
  start : Option String
  «end» : Option String
deriving DecidableEq

/-- The loaded configuration, as the engine reads it. -/
structure Config where
  locations : List Location
  quiet_hours : QuietHours
deriving DecidableEq

/-- A wall-clock time of day (`datetime.time`): hour, minute, second. -/
structure Time where
  hour : ℕ
  minute : ℕ
  second : ℕ
deriving DecidableEq

/-- Second-of-day value; Python `time` comparison agrees with comparison of
this value for in-range fields. -/
def Time.toSec (t : Time) : ℕ :=
  t.hour * 3600 + t.minute * 60 + t.second

/-- Numeric value of an ASCII digit, `none` for any other character. -/
def digit_val (c : Char) : Option ℕ :=
  if c.isDigit then some (c.toNat - 48) else none

/-- Range check shared by the shapes of `parse_time`. -/
def mk_time (hn mn : ℕ) : Option Time :=
  if hn < 24 ∧ mn < 60 then some ⟨hn, mn, 0⟩ else none

/-- Model of `datetime.strptime(s, "%H:%M").time()`: one or two digits of hour
(0–23), a literal colon, one or two digits of minute (0–59), nothing else;
`none` models the `ValueError` raised on any other input. -/
def parse_time (s : String) : Option Time :=
  match s.data with
  | [a, b, c] =>
    if b = ':' then
      match digit_val a, digit_val c with
      | some hn, some mn => mk_time hn mn
      | _, _ => none
    else none
  | [a, b, c, d] =>
    if b = ':' then
      match digit_val a, digit_val c, digit_val d with
      | some hn, some m1, some m2 => mk_time hn (10 * m1 + m2)
      | _, _, _ => none
    else if c = ':' then
      match digit_val a, digit_val b, digit_val d with
      | some h1, some h2, some mn => mk_time (10 * h1 + h2) mn
      | _, _, _ => none
    else none
  | [a, b, c, d, e] =>
    if c = ':' then
      match digit_val a, digit_val b, digit_val d, digit_val e with
      | some h1, some h2, some m1, some m2 => mk_time (10 * h1 + h2) (10 * m1 + m2)
      | _, _, _, _ => none
    else none
  | _ => none

/-- Model of `AlertChecker.is_quiet_hours`, with the current time of day passed as a
parameter in place of `datetime.now().time()`. Missing `start`/`end` keys
default to `"22:00"`/`"07:00"`; a `ValueError` from parsing is caught and
yields `false`. -/
def is_quiet_hours (cfg : Config) (now : Time) : Bool :=
  let qh := cfg.quiet_hours
  if ¬ qh.enabled then false
  else
    match parse_time (qh.start.getD "22:00"), parse_time (qh.«end».getD "07:00") with
    | some s, some e =>
      if s.toSec > e.toSec then decide (now.toSec ≥ s.toSec ∨ now.toSec ≤ e.toSec)
      else decide (s.toSec ≤ now.toSec ∧ now.toSec ≤ e.toSec)
    | _, _ => false

/-- Model of `AlertChecker._get_condition_value`. A `None` condition (missing key)
matches none of the string comparisons and falls to the unknown branch. -/
def get_condition_value (wd : WeatherData) (condition : Option String) : Option ℚ :=
  if condition = some "temperature" then wd.temperature_current
  else if condition = some "feels_like" then wd.temperature_feels_like
  else if condition = some "humidity" then wd.humidity
  else if condition = some "pressure" then wd.pressure
  else if condition = some "wind" then wd.wind_speed
  else if condition = some "clouds" then wd.clouds
  else if condition = some "precipitation" then
    some ((wd.precipitation.getD ⟨none, none⟩).rain.getD 0
      + (wd.precipitation.getD ⟨none, none⟩).snow.getD 0)
  else if condition = some "rain" then
    some ((wd.precipitation.getD ⟨none, none⟩).rain.getD 0)
  else if condition = some "snow" then
    some ((wd.precipitation.getD ⟨none, none⟩).snow.getD 0)
  else none

/-- Model of `AlertChecker._check_condition`. When the extracted value is present and
the operator is `above` or `below`, Python evaluates
`current_value > threshold` / `< threshold`; a missing `value` key makes
`threshold` `None` and that comparison raises an uncaught `TypeError`
(`.error .typeError`). `==` against `None` is just `False`. -/
def check_condition (wd : WeatherData) (condition operator : Option String)
    (threshold : Option ℚ) : Except PyExn Bool :=
  match get_condition_value wd condition with
  | none => .ok false
  | some v =>
    if operator = some "above" then
      match threshold with
      | none => .error .typeError
      | some t => .ok (decide (v > t))
    else if operator = some "below" then
      match threshold with
      | none => .error .typeError
      | some t => .ok (decide (v < t))
    else if operator = some "equals" then
      match threshold with
      | none => .ok false
      | some t => .ok (decide (v = t))
    else .ok false

/-- The cooldown key built at line 100 of `alerts.py`:
`f"{location_name}_{condition}_{operator}_{threshold}"`, modelled as the
structurally equal tuple of its four components. -/
abbrev CooldownKey := String × Option String × Option String × Option ℚ

/-- The `self.alert_history` dict: cooldown key to last-fired epoch time. -/
def History := CooldownKey → Option ℚ

/-- Dict assignment `self.alert_history[key] = v`. -/
def History.set (h : History) (k : CooldownKey) (v : ℚ) : History :=
  fun k' => if k' = k then some v else h k'

/-- The cooldown decision of lines 103–108 of `alerts.py`: fire when there is
no prior record, or when strictly more than 21600 seconds have elapsed; on
firing, record `now` for the key. Returns the decision and the new history. -/
def should_fire (h : History) (k : CooldownKey) (now : ℚ) : Bool × History :=
  match h k with
  | none => (true, h.set k now)
  | some last => if now - last > 21600 then (true, h.set k now) else (false, h)

/-- A triggered-alert record as constructed at lines 110–117; the timestamp
is kept as the epoch time used for the cooldown bookkeeping. -/
structure TriggeredAlert where
  location : String
  condition : Option String
  threshold : Option ℚ
  current_value : Option ℚ
  message : String
  timestamp : ℚ

/-- The per-rule loop of `check_location_alerts` (lines 92–121): evaluate
each alert of the location in order, threading the history and accumulating
triggered alerts; an uncaught `TypeError` from `_check_condition` aborts
the whole call. -/
def process_alerts (location_name : String) (wd : WeatherData) (current_time : ℚ) :
    List AlertRule → History → List TriggeredAlert →
    Except PyExn (List TriggeredAlert × History)
  | [], hist, acc => .ok (acc, hist)
  | a :: rest, hist, acc =>
    match check_condition wd a.condition a.operator a.value with
    | .error e => .error e
    | .ok false => process_alerts location_name wd current_time rest hist acc
    | .ok true =>
      let k : CooldownKey := (location_name, a.condition, a.operator, a.value)
      match should_fire hist k current_time with
      | (false, h') => process_alerts location_name wd current_time rest h' acc
      | (true, h') =>
        let t : TriggeredAlert :=
          { location := location_name
            condition := a.condition
            threshold := a.value
            current_value := get_condition_value wd a.condition
            message := a.message.getD (String.append "Weather alert for " location_name)
            timestamp := current_time }
        process_alerts location_name wd current_time rest h' (acc ++ [t])

/-- Python `str.strip()`: remove leading and trailing whitespace. -/
def strip (s : String) : String :=
  ⟨((s.data.dropWhile Char.isWhitespace).reverse.dropWhile Char.isWhitespace).reverse⟩

/-- The location lookup of lines 77–85: first configured location whose
name (default `""`), stripped of surrounding whitespace, equals the queried
name stripped likewise; comparison is ordinary string equality, so it is
case-sensitive. -/
def find_location (locations : List Location) (location_name : String) : Option Location :=
  locations.find? (fun loc => strip (loc.name.getD "") == strip location_name)

/-- Model of `AlertChecker.check_location_alerts`, with the two clock reads passed as
parameters: `now` for the quiet-hours gate and `current_time` (epoch
seconds) for the cooldown bookkeeping and timestamps. -/
def check_location_alerts (cfg : Config) (hist : History) (location_name : String)
    (wd : WeatherData) (now : Time) (current_time : ℚ) :
    Except PyExn (List TriggeredAlert × History) :=
  if is_quiet_hours cfg now then .ok ([], hist)
  else
    match find_location cfg.locations location_name with
    | none => .ok ([], hist)
    | some loc => process_alerts location_name wd current_time loc.alerts hist []

/-- Repeated evaluations of one cooldown key: fold `should_fire` over a list
of evaluation instants, returning the instants at which the key fired. -/
def run_key (k : CooldownKey) : List ℚ → History → List ℚ
  | [], _ => []
  | t :: ts, h =>
    match should_fire h k t with
    | (true, h') => t :: run_key k ts h'
    | (false, h') => run_key k ts h'

/-- The condition names `_get_condition_value` recognizes. -/
def recognized_conditions : List (Option String) :=
  [some "temperature", some "feels_like", some "humidity", some "pressure",
   some "wind", some "clouds", some "precipitation", some "rain", some "snow"]

/-- The operator names `_check_condition` recognizes. -/
def recognized_operators : List (Option String) :=
  [some "above", some "below", some "equals"]

/-- The `AlertChecker` object state: the loaded config and the alert
history. -/
structure Checker where
  config : Config
  alert_history : History

/-- Model of `AlertChecker.refresh_config`. `_load_config` performs file I/O, so its
outcome is a parameter: either the newly parsed config, or the
`JSONDecodeError`/`FileNotFoundError` that `_load_config` logs and
re-raises. The pair returned is (call outcome, object state after the
call): Python evaluates `self._load_config()` before the assignment to
`self.config`, so on an exception the state is the untouched original. -/
def refresh_config (c : Checker) (load_result : Except String Config) :
    Except String Unit × Checker :=
  match load_result with
  | .error e => (.error e, c)
  | .ok cfg => (.ok (), { c with config := cfg })

/-- An unrecognized condition name extracts no value. -/
theorem get_condition_value_unknown (wd : WeatherData) (c : Option String)
    (hc : c ∉ recognized_conditions) : get_condition_value wd c = none := by
  simp only [recognized_conditions, List.mem_cons, List.not_mem_nil, or_false,
    not_or] at hc
  obtain ⟨h1, h2, h3, h4, h5, h6, h7, h8, h9⟩ := hc
  simp [get_condition_value, h1, h2, h3, h4, h5, h6, h7, h8, h9]

/-- An unrecognized operator makes `_check_condition` return false. -/
theorem check_condition_unknown_operator (wd : WeatherData) (c op : Option String)
    (th : Option ℚ) (hop : op ∉ recognized_operators) :
    check_condition wd c op th = .ok false := by
  simp only [recognized_operators, List.mem_cons, List.not_mem_nil, or_false,
    not_or] at hop
  obtain ⟨h1, h2, h3⟩ := hop
  unfold check_condition
  cases get_condition_value wd c <;> simp [h1, h2, h3]

/-- A fired key's history records the firing time. -/
theorem should_fire_update (h : History) (k : CooldownKey) (now : ℚ) :
    (should_fire h k now).1 = true → (should_fire h k now).2 k = some now := by
  intro hf
  unfold should_fire at hf ⊢
  cases hk : h k with
  | none => simp only [hk]; simp [History.set]
  | some last =>
    simp only [hk] at hf ⊢
    by_cases hc : now - last > 21600
    · rw [if_pos hc]; simp [History.set]
    · rw [if_neg hc] at hf; simp at hf

/-- Once a key's history records `t0`, every later firing of that key in a
run is strictly more than 21600 seconds after `t0`. -/
theorem run_key_after (k : CooldownKey) :
    ∀ (ts : List ℚ) (h : History) (t0 : ℚ), h k = some t0 →
      ∀ b ∈ run_key k ts h, b - t0 > 21600 := by
  intro ts
  induction ts with
  | nil => intro h t0 _ b hb; simp [run_key] at hb
  | cons u ts ih =>
    intro h t0 hk b hb
    unfold run_key should_fire at hb
    simp only [hk] at hb
    by_cases hcool : u - t0 > 21600
    · rw [if_pos hcool] at hb
      simp only [List.mem_cons] at hb
      rcases hb with rfl | hb
      · exact hcool
      · have hb' := ih (h.set k u) u (by simp [History.set]) b hb
        linarith
    · rw [if_neg hcool] at hb
      exact ih h t0 hk b hb

/-- In any run of evaluations of one key, the instants at which the key
fires are pairwise more than 21600 seconds apart. -/
theorem run_key_spaced (k : CooldownKey) :
    ∀ (ts : List ℚ) (h : History),
      (run_key k ts h).Pairwise (fun a b => b - a > 21600) := by
  intro ts
  induction ts with
  | nil => intro h; simp [run_key]
  | cons u ts ih =>
    intro h
    unfold run_key
    rcases hsf : should_fire h k u with ⟨f, h'⟩
    rcases f
    · exact ih h'
    · refine List.Pairwise.cons ?_ (ih h')
      intro b hb
      have hk' : h' k = some u := by
        have hupd := should_fire_update h k u
        rw [hsf] at hupd
        exact hupd rfl
      exact run_key_after k ts h' u hk' b hb

/-- C1: the cooldown mechanism of `check_location_alerts`: a key with no
prior record fires and records the current time; a key with a prior record
fires iff strictly more than 21600 seconds elapsed (exactly 21600 does not
re-permit firing); every firing records the current time; hence over any
sequence of evaluations a key's firing instants are pairwise more than six
hours apart — it never fires twice within one 6-hour window. -/
theorem cooldown_spec :
    (∀ (h : History) (k : CooldownKey) (now : ℚ), h k = none →
       should_fire h k now = (true, h.set k now))
  ∧ (∀ (h : History) (k : CooldownKey) (now last : ℚ), h k = some last →
       ((should_fire h k now).1 = true ↔ now - last > 21600)
       ∧ (now - last = 21600 → (should_fire h k now).1 = false))
  ∧ (∀ (h : History) (k : CooldownKey) (now : ℚ), (should_fire h k now).1 = true →
       (should_fire h k now).2 k = some now)
  ∧ (∀ (k : CooldownKey) (ts : List ℚ) (h : History),
       (run_key k ts h).Pairwise (fun a b => b - a > 21600)) := by
  refine ⟨?_, ?_, should_fire_update, fun k ts h => run_key_spaced k ts h⟩
  · intro h k now hk
    simp [should_fire, hk]
  · intro h k now last hk
    constructor
    · simp only [should_fire, hk]
      by_cases hc : now - last > 21600
      · rw [if_pos hc]; simpa
      · rw [if_neg hc]; exact iff_of_false (by simp) hc
    · intro heq
      simp only [should_fire, hk]
      rw [if_neg (by rw [heq]; exact lt_irrefl _)]

/-- Concrete instance of `cooldown_spec`: a fresh key fires at t = 1000 and
is recorded; re-evaluating the same key at t = 22600 (exactly six hours
later) does not fire. -/
theorem cooldown_spec_witness :
    should_fire (fun _ => none)
      ("Springfield", some "temperature", some "above", some 30) 1000
      = (true, History.set (fun _ => none)
          ("Springfield", some "temperature", some "above", some 30) 1000)
    ∧ (should_fire
        (History.set (fun _ => none)
          ("Springfield", some "temperature", some "above", some 30) 1000)
        ("Springfield", some "temperature", some "above", some 30) 22600).1 = false :=
  ⟨cooldown_spec.1 (fun _ => none)
      ("Springfield", some "temperature", some "above", some 30) 1000 rfl,
   (cooldown_spec.2.1
      (History.set (fun _ => none)
        ("Springfield", some "temperature", some "above", some 30) 1000)
      ("Springfield", some "temperature", some "above", some 30) 22600 1000
      (by simp [History.set])).2 (by norm_num)⟩

/-- C9: the matches predicate is monotonic in the threshold for the `above`
operator: if some extracted value matches `above t` and `t' < t`, then it
also matches `above t'`. -/
theorem matches_above_monotonic :
    ∀ (wd : WeatherData) (c : Option String) (v t t' : ℚ),
      get_condition_value wd c = some v →
      check_condition wd c (some "above") (some t) = .ok true →
      t' < t →
      check_condition wd c (some "above") (some t') = .ok true := by
  intro wd c v t t' hv h hlt
  simp only [check_condition, hv] at h ⊢
  simp only [reduceIte, Except.ok.injEq, decide_eq_true_eq] at h ⊢
  exact lt_trans hlt h

/-- Concrete instance of `matches_above_monotonic`: value 35 matches
`above 30`, hence also `above 20`. -/
theorem matches_above_monotonic_witness :
    check_condition ⟨some 35, none, none, none, none, none, none⟩
      (some "temperature") (some "above") (some 20) = .ok true :=
  matches_above_monotonic ⟨some 35, none, none, none, none, none, none⟩
    (some "temperature") 35 30 20 rfl
    (by simp [check_condition, get_condition_value]; norm_num) (by norm_num)

/-- C5: when the quiet-hours gate reports quiet, `check_location_alerts`
returns the empty list and the history it was given, completely unchanged:
no rule is evaluated and no cooldown key is touched. -/
theorem quiet_hours_veto :
    ∀ (cfg : Config) (hist : History) (location_name : String) (wd : WeatherData)
      (now : Time) (current_time : ℚ),
      is_quiet_hours cfg now = true →
      check_location_alerts cfg hist location_name wd now current_time = .ok ([], hist) := by
  intro cfg hist ln wd now ct hq
  simp [check_location_alerts, hq]

/-- Concrete instance of `quiet_hours_veto`: 23:00 inside enabled
22:00–07:00 quiet hours vetoes evaluation. -/
theorem quiet_hours_veto_witness :
    check_location_alerts ⟨[], ⟨true, some "22:00", some "07:00"⟩⟩ (fun _ => none)
      "Springfield" ⟨none, none, none, none, none, none, none⟩ ⟨23, 0, 0⟩ 0
      = .ok ([], fun _ => none) :=
  quiet_hours_veto ⟨[], ⟨true, some "22:00", some "07:00"⟩⟩ (fun _ => none)
    "Springfield" ⟨none, none, none, none, none, none, none⟩ ⟨23, 0, 0⟩ 0 (by decide)

/-- C7: an enabled quiet-hours config whose start or end string fails to
parse as HH:MM makes the gate report not-quiet (fail open), at every time
of day. -/
theorem malformed_quiet_hours_fail_open :
    ∀ (cfg : Config) (now : Time),
      cfg.quiet_hours.enabled = true →
      (parse_time (cfg.quiet_hours.start.getD "22:00") = none ∨
       parse_time (cfg.quiet_hours.«end».getD "07:00") = none) →
      is_quiet_hours cfg now = false := by
  intro cfg now hen hp
  cases h1 : parse_time (cfg.quiet_hours.start.getD "22:00") with
  | none => simp [is_quiet_hours, hen, h1]
  | some s =>
    cases h2 : parse_time (cfg.quiet_hours.«end».getD "07:00") with
    | none => simp [is_quiet_hours, hen, h1, h2]
    | some e => rcases hp with hp | hp <;> simp_all

/-- Concrete instance of `malformed_quiet_hours_fail_open`: start string
`"banana"` does not parse, so the gate is open even at 23:00. -/
theorem malformed_quiet_hours_fail_open_witness :
    is_quiet_hours ⟨[], ⟨true, some "banana", some "07:00"⟩⟩ ⟨23, 0, 0⟩ = false :=
  malformed_quiet_hours_fail_open ⟨[], ⟨true, some "banana", some "07:00"⟩⟩ ⟨23, 0, 0⟩
    rfl (Or.inl rfl)

/-- C2 (counterexample): on a snapshot with no `precipitation` block at
all, `_get_condition_value` returns 0 — not absent — because
`weather_data.get("precipitation", {})` substitutes an empty dict, whose
`rain`/`snow` lookups then default to 0; consequently a `precipitation`
rule (here `below 1`) can match such a snapshot, contrary to the claim. -/
theorem precipitation_absent_cex :
    get_condition_value ⟨none, none, none, none, none, none, none⟩ (some "precipitation")
      = some 0
    ∧ get_condition_value ⟨none, none, none, none, none, none, none⟩ (some "precipitation")
      ≠ none
    ∧ check_condition ⟨none, none, none, none, none, none, none⟩ (some "precipitation")
      (some "below") (some 1) = .ok true := by
  refine ⟨?_, ?_, ?_⟩
  · simp [get_condition_value]
  · simp [get_condition_value]
  · simp [check_condition, get_condition_value]

/-- C2 (amended): extracting `precipitation` returns rain + snow with each
missing sub-field treated as 0; when the whole precipitation block is
absent the result is 0 (not absent), so a `precipitation` rule can still
match such a snapshot. -/
theorem precipitation_extraction_amended :
    ∀ (wd : WeatherData),
      (∀ p, wd.precipitation = some p →
        get_condition_value wd (some "precipitation")
          = some (p.rain.getD 0 + p.snow.getD 0))
      ∧ (wd.precipitation = none →
        get_condition_value wd (some "precipitation") = some 0
        ∧ check_condition wd (some "precipitation") (some "below") (some 1) = .ok true) := by
  intro wd
  constructor
  · intro p hp; simp [get_condition_value, hp]
  · intro hp
    constructor
    · simp [get_condition_value, hp]
    · simp [check_condition, get_condition_value, hp]

/-- Concrete instance of `precipitation_extraction_amended` at a snapshot
with no precipitation block. -/
theorem precipitation_extraction_amended_witness :
    get_condition_value ⟨none, none, none, none, none, none, none⟩ (some "precipitation")
      = some 0
    ∧ check_condition ⟨none, none, none, none, none, none, none⟩ (some "precipitation")
      (some "below") (some 1) = .ok true :=
  (precipitation_extraction_amended ⟨none, none, none, none, none, none, none⟩).2 rfl

/-- C8 (code evaluated at the failing input): a rule whose `value` key is
missing but whose condition extracts a present value makes
`_check_condition` evaluate `current_value > None`, which raises an
uncaught `TypeError`; `check_location_alerts` propagates it instead of
skipping the rule. -/
theorem missing_threshold_raises :
    check_location_alerts
      ⟨[⟨some "X", [⟨some "temperature", some "above", none, none⟩]⟩], ⟨false, none, none⟩⟩
      (fun _ => none) "X" ⟨some 20, none, none, none, none, none, none⟩ ⟨12, 0, 0⟩ 0
      = .error .typeError := rfl

/-- C10: when `_load_config` fails, `refresh_config` propagates the
exception and the checker's config and alert history are exactly as
before the call. -/
theorem refresh_config_atomic_on_error :
    ∀ (c : Checker) (e : String) (r : Except String Config),
      r = .error e →
      refresh_config c r = (.error e, c)
      ∧ (refresh_config c r).2.config = c.config
      ∧ (refresh_config c r).2.alert_history = c.alert_history := by
  intro c e r hr
  subst hr
  exact ⟨rfl, rfl, rfl⟩

/-- Concrete instance of `refresh_config_atomic_on_error`. -/
theorem refresh_config_atomic_on_error_witness :
    refresh_config ⟨⟨[], ⟨false, none, none⟩⟩, fun _ => none⟩ (.error "boom")
      = (.error "boom", ⟨⟨[], ⟨false, none, none⟩⟩, fun _ => none⟩) :=
  (refresh_config_atomic_on_error ⟨⟨[], ⟨false, none, none⟩⟩, fun _ => none⟩
    "boom" (.error "boom") rfl).1

/-- C3: for an enabled config with parseable start and end: an overnight
range (start > end) is quiet iff now ≥ start or now ≤ end; a same-day range
(start ≤ end) is quiet iff start ≤ now ≤ end; both boundary instants are
quiet in either branch; and a disabled config is never quiet. -/
theorem quiet_hours_spec :
    (∀ (cfg : Config) (now : Time), cfg.quiet_hours.enabled = false →
       is_quiet_hours cfg now = false)
  ∧ (∀ (cfg : Config) (now s e : Time),
       cfg.quiet_hours.enabled = true →
       parse_time (cfg.quiet_hours.start.getD "22:00") = some s →
       parse_time (cfg.quiet_hours.«end».getD "07:00") = some e →
       (s.toSec > e.toSec →
          (is_quiet_hours cfg now = true ↔ (s.toSec ≤ now.toSec ∨ now.toSec ≤ e.toSec)))
       ∧ (s.toSec ≤ e.toSec →
          (is_quiet_hours cfg now = true ↔ (s.toSec ≤ now.toSec ∧ now.toSec ≤ e.toSec)))
       ∧ (is_quiet_hours cfg s = true ∧ is_quiet_hours cfg e = true)) := by
  constructor
  · intro cfg now hen
    simp [is_quiet_hours, hen]
  · intro cfg now s e hen h1 h2
    have hq : ∀ (n : Time), is_quiet_hours cfg n =
        (if s.toSec > e.toSec then decide (n.toSec ≥ s.toSec ∨ n.toSec ≤ e.toSec)
         else decide (s.toSec ≤ n.toSec ∧ n.toSec ≤ e.toSec)) := by
      intro n
      simp [is_quiet_hours, hen, h1, h2]
    refine ⟨?_, ?_, ?_, ?_⟩
    · intro hgt
      rw [hq, if_pos hgt]
      simp [ge_iff_le]
    · intro hle
      rw [hq, if_neg (not_lt.mpr hle)]
      simp
    · rw [hq]
      split
      · simp
      · next hle => simp; omega
    · rw [hq]
      split
      · simp
      · next hle => simp; omega

/-- Concrete instance of `quiet_hours_spec`: 23:30 is quiet inside enabled
overnight quiet hours 22:00–07:00, and a disabled config is not quiet. -/
theorem quiet_hours_spec_witness :
    is_quiet_hours ⟨[], ⟨true, some "22:00", some "07:00"⟩⟩ ⟨23, 30, 0⟩ = true
    ∧ is_quiet_hours ⟨[], ⟨false, some "22:00", some "07:00"⟩⟩ ⟨23, 30, 0⟩ = false :=
  ⟨((quiet_hours_spec.2 ⟨[], ⟨true, some "22:00", some "07:00"⟩⟩ ⟨23, 30, 0⟩
      ⟨22, 0, 0⟩ ⟨7, 0, 0⟩ rfl rfl rfl).1 (by decide)).mpr (Or.inl (by decide)),
   quiet_hours_spec.1 ⟨[], ⟨false, some "22:00", some "07:00"⟩⟩ ⟨23, 30, 0⟩ rfl⟩

/-- C4: a rule whose condition or operator is not in the recognized
enumeration is a no-op inside the per-rule loop: it produces no alert,
leaves the cooldown history untouched, and the remaining rules are
evaluated exactly as if the rule were not there. -/
theorem unknown_rule_isolated :
    ∀ (location_name : String) (wd : WeatherData) (current_time : ℚ) (a : AlertRule)
      (rest : List AlertRule) (hist : History) (acc : List TriggeredAlert),
      (a.condition ∉ recognized_conditions ∨ a.operator ∉ recognized_operators) →
      process_alerts location_name wd current_time (a :: rest) hist acc
        = process_alerts location_name wd current_time rest hist acc := by
  intro ln wd ct a rest hist acc h
  have hcc : check_condition wd a.condition a.operator a.value = .ok false := by
    rcases h with h | h
    · simp [check_condition, get_condition_value_unknown wd a.condition h]
    · exact check_condition_unknown_operator wd a.condition a.operator a.value h
  simp [process_alerts, hcc]

/-- Concrete instance of `unknown_rule_isolated`: a rule with unknown
condition `"foo"` is skipped. -/
theorem unknown_rule_isolated_witness :
    process_alerts "Springfield" ⟨none, none, none, none, none, none, none⟩ 0
      [⟨some "foo", some "above", some 1, none⟩] (fun _ => none) []
      = process_alerts "Springfield" ⟨none, none, none, none, none, none, none⟩ 0
        [] (fun _ => none) [] :=
  unknown_rule_isolated "Springfield" ⟨none, none, none, none, none, none, none⟩ 0
    ⟨some "foo", some "above", some 1, none⟩ [] (fun _ => none) []
    (Or.inl (by decide))

/-- C6: the location lookup strips surrounding whitespace and compares the
names with plain (case-sensitive) string equality; when no configured
location matches, evaluation returns the empty list with the history
untouched, so no alert is ever constructed for an unmatched location.
`" Springfield  "` resolves to `"Springfield"`; `"springfield"` does not. -/
theorem location_lookup_spec :
    (∀ (cfg : Config) (hist : History) (location_name : String) (wd : WeatherData)
       (now : Time) (current_time : ℚ),
       (∀ loc ∈ cfg.locations, ¬ strip (loc.name.getD "") = strip location_name) →
       check_location_alerts cfg hist location_name wd now current_time = .ok ([], hist))
  ∧ find_location [⟨some "Springfield", []⟩] " Springfield  "
      = some ⟨some "Springfield", []⟩
  ∧ find_location [⟨some "Springfield", []⟩] "springfield" = none := by
  refine ⟨?_, by decide, by decide⟩
  intro cfg hist ln wd now ct hno
  unfold check_location_alerts
  split
  · rfl
  · have hfind : find_location cfg.locations ln = none := by
      unfold find_location
      rw [List.find?_eq_none]
      intro loc hmem
      simp [hno loc hmem]
    rw [hfind]

/-- Concrete instance of `location_lookup_spec`: querying `"B"` against a
config that only knows `"A"` returns no alerts and the same history. -/
theorem location_lookup_spec_witness :
    check_location_alerts ⟨[⟨some "A", []⟩], ⟨false, none, none⟩⟩ (fun _ => none) "B"
      ⟨none, none, none, none, none, none, none⟩ ⟨12, 0, 0⟩ 0
      = .ok ([], fun _ => none) :=
  location_lookup_spec.1 ⟨[⟨some "A", []⟩], ⟨false, none, none⟩⟩ (fun _ => none) "B"
    ⟨none, none, none, none, none, none, none⟩ ⟨12, 0, 0⟩ 0 (by decide)

end WeatherAlert
